import Mathlib

/-!
Verification of the "santo do dia" fetch→parse→cache pipeline (src/index.py).

The Python source is shallowly embedded:

* A fetched HTML page is reduced to the four pieces of structure the code
  actually inspects (`Pagina`): the text of the `div.feature__name` element,
  the ordered texts of the `<p>` children of `div.wg-text`, the state of the
  portrait lookup inside `div.feature`, and the `href`s of the anchors inside
  `div.saints-list`.
* The network is a function `Rede : String → Option Pagina`; `none` models any
  `requests.RequestException` (timeout, transport failure, non-success status)
  raised by `sessao.get` inside `buscar_url`.
* Exceptions are modelled by `Option`/explicit branches exactly where the
  source catches them; a function that the source makes total by a
  `try/except` is total here by construction.
* The flask-caching store is a function `String → Option ValorCache`; route
  handlers return their response together with the updated store and the list
  of `buscar_url` invocations they performed (the PageFetcher calls), so that
  "no upstream fetch occurred" is the statement `buscas = []`.
* `hashlib.md5(...).hexdigest()` is an external library function; it is kept
  as an explicit parameter `hash : String → String` applied to the exact key
  material `string_chave` that the source builds (its local variable of the
  same name).  Every theorem about keys quantifies over `hash`.
* The fan-out `list(filter(None, executor.map(buscar_dados_santo, urls)))`
  keeps `executor.map`'s documented input-order result sequence, hence is
  `List.filterMap`.
-/

namespace SantoDia

/-- The record built by `extrair_info_santo` (a Python dict with these five
keys). -/
structure InfoSanto where
  nome : String
  imagem : Option String
  historia : String
  reflexao : String
  oracao : String
deriving DecidableEq, Repr

/-- Outcome of the portrait lookup
`soup.find("div", class_="feature").find(class_="feature__portrait")["src"]`:
the `div.feature` element may be absent (attribute error on `.find`), the
portrait element may be absent or empty (the conditional expression yields
`None`), the portrait may lack a `src` attribute (key error), or the `src`
string is available. -/
inductive Retrato where
  | semFeature
  | semPortrait
  | semSrc
  | comSrc (s : String)
deriving DecidableEq, Repr

/-- The parts of a fetched page that `src/index.py` inspects.
`featureName` is the text of `div.feature__name` (`none` when the element is
absent); `wgText` is the list of texts of the `<p>` elements under
`div.wg-text` (`none` when that div is absent); `saintsList` is the list of
`href` attributes of anchors under `div.saints-list` (`none` when that
container is absent or empty). -/
structure Pagina where
  featureName : Option String
  wgText : Option (List String)
  retrato : Retrato
  saintsList : Option (List String)
deriving DecidableEq, Repr

/-- Drop leading whitespace characters from a character list. -/
def limparEsquerda : List Char → List Char
  | [] => []
  | c :: cs => if c.isWhitespace then limparEsquerda cs else c :: cs

/-- Python's `str.strip()`: remove leading and trailing whitespace.  (Defined
by structural recursion on the character list so that it evaluates inside
`decide`/`rfl` proofs.) -/
def stripTexto (s : String) : String :=
  String.mk ((limparEsquerda (limparEsquerda s.data).reverse).reverse)

/-- `[p.text.strip() for p in l if p.text.strip()]`: strip every text and keep
the non-empty results. -/
def naoVazios (l : List String) : List String :=
  (l.map stripTexto).filter (fun s => s != "")

/-- `"\n\n".join(p.text.strip() for p in l if p.text.strip())`. -/
def juntarNaoVazios (l : List String) : String :=
  String.intercalate "\n\n" (naoVazios l)

/-- Python slice `infos_santo[:-4]`. -/
def fatiaHistoria (ps : List String) : List String :=
  ps.take (ps.length - 4)

/-- Python slice `infos_santo[-3:-2]`: start index `max(N-3,0)`, stop index
`max(N-2,0)`, rendered with truncated natural subtraction. -/
def fatiaReflexao (ps : List String) : List String :=
  (ps.drop (ps.length - 3)).take (ps.length - 2 - (ps.length - 3))

/-- Python slice `infos_santo[-1:]`. -/
def fatiaOracao (ps : List String) : List String :=
  ps.drop (ps.length - 1)

/-- `extrair_info_santo` (src/index.py lines 70–87).  The `try` block fails —
and the function returns `None` — when `div.feature__name` is absent, when
`div.wg-text` is absent, when `div.feature` is absent, or when the portrait
element lacks a `src` attribute.  Otherwise it builds the record by positional
slicing of the paragraph texts. -/
def extrair_info_santo (pg : Pagina) : Option InfoSanto :=
  match pg.featureName, pg.wgText, pg.retrato with
  | some nomeBruto, some ps, Retrato.semPortrait =>
      some ⟨stripTexto nomeBruto, none,
            juntarNaoVazios (fatiaHistoria ps),
            juntarNaoVazios (fatiaReflexao ps),
            juntarNaoVazios (fatiaOracao ps)⟩
  | some nomeBruto, some ps, Retrato.comSrc s =>
      some ⟨stripTexto nomeBruto, some ("https://www.a12.com" ++ s),
            juntarNaoVazios (fatiaHistoria ps),
            juntarNaoVazios (fatiaReflexao ps),
            juntarNaoVazios (fatiaOracao ps)⟩
  | _, _, _ => none

/-- `extrair_info_santo` succeeds exactly when the name element and the text
container are present and the portrait lookup does not raise. -/
def retratoOk : Retrato → Bool
  | Retrato.semFeature => false
  | Retrato.semSrc => false
  | Retrato.semPortrait => true
  | Retrato.comSrc _ => true

/-- The network: `none` models a failed `sessao.get` (exception raised by
`buscar_url`). -/
abbrev Rede : Type := String → Option Pagina

/-- `buscar_dados_santo` (lines 89–97): fetch the URL, parse, extract; every
exception is caught and turned into `None`. -/
def buscar_dados_santo (rede : Rede) (url : String) : Option InfoSanto :=
  match rede url with
  | none => none
  | some pg => extrair_info_santo pg

/-- `list(filter(None, executor.map(buscar_dados_santo, urls)))`:
`ThreadPoolExecutor.map` yields results in input order, so the fan-out is an
order-preserving `filterMap`. -/
def resolverLista (rede : Rede) (urls : List String) : List InfoSanto :=
  urls.filterMap (buscar_dados_santo rede)

/-- The links whose fetch-or-extraction fails (dropped from the batch). -/
def numFalhas (rede : Rede) (urls : List String) : Nat :=
  (urls.filter (fun u => (buscar_dados_santo rede u).isNone)).length

/-- Ordering used by Python's `sorted(kwargs.items())`: lexicographic on the
`(key, value)` pair. -/
def menorIgualPar (a b : String × String) : Bool :=
  match compare a.1 b.1 with
  | Ordering.lt => true
  | Ordering.gt => false
  | Ordering.eq => !(compare a.2 b.2 == Ordering.gt)

/-- Insertion sort implementing `sorted(kwargs.items())`. -/
def ordenarPares : List (String × String) → List (String × String)
  | [] => []
  | p :: ps => inserirPar p (ordenarPares ps)
where
  inserirPar (p : String × String) : List (String × String) → List (String × String)
  | [] => [p]
  | q :: qs => if menorIgualPar p q then p :: q :: qs else q :: inserirPar p qs

/-- The local variable `string_chave` of `criar_chave_cache` (lines 50–57):
stringified positional arguments, then `"k:v"` for the sorted keyword
arguments, then the current date formatted `%Y-%m-%d`, joined with `"_"`.
The caller supplies the date string `dataAtual` (the embedding of
`datetime.now().strftime("%Y-%m-%d")`, which is constant within a calendar
day and `%Y-%m-%d` is injective on calendar dates). -/
def string_chave (args : List String) (kwargs : List (String × String))
    (dataAtual : String) : String :=
  String.intercalate "_"
    (args ++ (ordenarPares kwargs).map (fun kv => kv.1 ++ ":" ++ kv.2) ++ [dataAtual])

/-- `criar_chave_cache`: the key material hashed by
`hashlib.md5(string_chave.encode()).hexdigest()`.  The md5 digest is library
code outside this repository and is kept as an explicit parameter
`hash : String → String` applied to the exact material the source builds. -/
def criar_chave_cache (hash : String → String) (args : List String)
    (kwargs : List (String × String)) (dataAtual : String) : String :=
  hash (string_chave args kwargs dataAtual)

/-- The value type stored in the flask-caching store: the `santos` list.  On
the `/` route the element appended at line 186 may be `None`, so the entries
are `Option InfoSanto`. -/
abbrev ValorCache : Type := List (Option InfoSanto)

/-- The cache store: `cache.get` is application, `none` is a miss. -/
abbrev CacheT : Type := String → Option ValorCache

/-- `cache.set(chave, valor)`. -/
def setCache (c : CacheT) (chave : String) (valor : ValorCache) : CacheT :=
  fun k => if k = chave then some valor else c k

/-- The empty store (state right after `cache.clear()`). -/
def cacheVazio : CacheT := fun _ => none

/-- What a route hands back to Flask: either `jsonify(resultados=...)` or the
`jsonify(erro=...), 500` pair produced by the `except` branch. -/
inductive Resp where
  | resultados (santos : List (Option InfoSanto))
  | erro
deriving DecidableEq, Repr

/-- Result of running a route handler: the response, the cache store after the
call, and the list of `buscar_url` invocations (PageFetcher calls) the handler
performed, in order. -/
structure Saida where
  resp : Resp
  cache : CacheT
  buscas : List String

/-- The top-level page of the `/` route and of the scheduler's first warm-up. -/
def urlSanto : String := "https://www.a12.com/reze-no-santuario/santo-do-dia"

/-- `f'https://www.a12.com/reze-no-santuario/santo-do-dia?day={dia}&month={mes}'`. -/
def urlSantoData (dia mes : Nat) : String :=
  urlSanto ++ "?day=" ++ toString dia ++ "&month=" ++ toString mes

/-- Cache key of the `/` route: `criar_chave_cache('inicio')`. -/
def chaveInicio (hash : String → String) (dataAtual : String) : String :=
  criar_chave_cache hash ["inicio"] [] dataAtual

/-- Cache key of the `/dia=<dia>&mes=<mes>` route:
`criar_chave_cache('data', dia, mes)` (each argument passed through `str`). -/
def chaveData (hash : String → String) (dia mes : Nat) (dataAtual : String) : String :=
  criar_chave_cache hash ["data", toString dia, toString mes] [] dataAtual

/-- The `try` block of the `/` route (lines 173–189): fetch the top-level
page (an exception yields the `erro` response with nothing stored), collect
the child links of `div.saints-list` when present, fan out, fall back to
extracting the page itself — wrapping the possibly-`None` extraction result —
when the container is absent and the fan-out produced nothing, then store and
return. -/
def corpoInicio (rede : Rede) (cache : CacheT) (chave : String) : Saida :=
  match rede urlSanto with
  | none => ⟨Resp.erro, cache, [urlSanto]⟩
  | some pg =>
    let urls := match pg.saintsList with
      | some us => us
      | none => []
    let santos : ValorCache := (resolverLista rede urls).map some
    let santos := if santos = ([] : List (Option InfoSanto)) ∧ pg.saintsList = none
      then [extrair_info_santo pg] else santos
    ⟨Resp.resultados santos, setCache cache chave santos, urlSanto :: urls⟩

/-- The `/` route handler `inicio` (lines 165–192): compute the key, serve the
stored value when the lookup is truthy (`if dados_cache:` — a stored empty
list is falsy and falls through), otherwise run the pipeline body. -/
def inicio (hash : String → String) (dataAtual : String) (rede : Rede)
    (cache : CacheT) : Saida :=
  let chave := chaveInicio hash dataAtual
  match cache chave with
  | some v => if v = ([] : List (Option InfoSanto)) then corpoInicio rede cache chave
              else ⟨Resp.resultados v, cache, []⟩
  | none => corpoInicio rede cache chave

/-- The `try` block of the `/dia=<dia>&mes=<mes>` route (lines 202–219): here
the single-page fallback is guarded (`if info_santo:`), so a failed extraction
leaves `santos = []`. -/
def corpoData (dia mes : Nat) (rede : Rede) (cache : CacheT) (chave : String) : Saida :=
  match rede (urlSantoData dia mes) with
  | none => ⟨Resp.erro, cache, [urlSantoData dia mes]⟩
  | some pg =>
    match pg.saintsList with
    | some us =>
      let santos : ValorCache := (resolverLista rede us).map some
      ⟨Resp.resultados santos, setCache cache chave santos, urlSantoData dia mes :: us⟩
    | none =>
      let santos : ValorCache := match extrair_info_santo pg with
        | some i => [some i]
        | none => []
      ⟨Resp.resultados santos, setCache cache chave santos, [urlSantoData dia mes]⟩

/-- The `/dia=<dia>&mes=<mes>` route handler `data` (lines 194–222). -/
def data (hash : String → String) (dataAtual : String) (dia mes : Nat)
    (rede : Rede) (cache : CacheT) : Saida :=
  let chave := chaveData hash dia mes dataAtual
  match cache chave with
  | some v => if v = ([] : List (Option InfoSanto)) then corpoData dia mes rede cache chave
              else ⟨Resp.resultados v, cache, []⟩
  | none => corpoData dia mes rede cache chave

/-- One iteration of the warm-up loop of `limpar_e_atualizar_cache`
(lines 115–135), over the state `(store, santosVar)` where `santosVar` is the
value of the Python local `santos` — `none` while the variable is still
unbound.  The per-URL `try/except` swallows every failure: a failed top-level
fetch leaves the state unchanged; when the page has no saints-list container
and extraction fails, `santos` is not assigned in this iteration, so
`cache.set(chave_cache, santos)` either raises `NameError` (first iteration:
nothing stored) or stores the value left over from the previous iteration.
The third component lists the `buscar_url` calls made. -/
def aquecerUrl (rede : Rede) (st : CacheT × Option ValorCache)
    (url chave : String) : (CacheT × Option ValorCache) × List String :=
  match rede url with
  | none => (st, [url])
  | some pg =>
    match pg.saintsList with
    | some us =>
      let v : ValorCache := (resolverLista rede us).map some
      ((setCache st.1 chave v, some v), url :: us)
    | none =>
      match extrair_info_santo pg with
      | some i => ((setCache st.1 chave [some i], some [some i]), [url])
      | none =>
        match st.2 with
        | none => (st, [url])
        | some v => ((setCache st.1 chave v, some v), [url])

/-- The daily scheduler job `limpar_e_atualizar_cache` (lines 99–139): clear
both caches, then warm the default "today" page under key
`criar_chave_cache('inicio')` and the explicit day/month page under key
`criar_chave_cache(f'data_{day}_{month}')`, each inside its own `try/except`;
the outer `try/except` means no error ever escapes the job — the embedding is
a total function by construction.  Returns the final `(store, santosVar)`
state and the list of `buscar_url` calls. -/
def limpar_e_atualizar_cache (hash : String → String) (dataAtual : String)
    (dia mes : Nat) (rede : Rede) : (CacheT × Option ValorCache) × List String :=
  let chave1 := criar_chave_cache hash ["inicio"] [] dataAtual
  let chave2 := criar_chave_cache hash
    ["data_" ++ toString dia ++ "_" ++ toString mes] [] dataAtual
  let r1 := aquecerUrl rede (cacheVazio, none) urlSanto chave1
  let r2 := aquecerUrl rede r1.1 (urlSantoData dia mes) chave2
  (r2.1, r1.2 ++ r2.2)

/-- `apos_requisicao` (lines 159–163): the `X-Status-Cache` header value,
computed from the response's `Cache-Control: public` flag. -/
def apos_requisicao (ccPublic : Bool) : String :=
  if ccPublic then "HIT" else "MISS"

/-- No handler in src/index.py ever sets a `Cache-Control` header on its
response, and Flask's `jsonify` responses carry none by default, so the
`resposta.cache_control.public` flag read by `apos_requisicao` is `False` on
every response the route layer produces. -/
def cache_control_public : Bool := false

/-! ### Helper lemmas about the extraction slices -/

theorem intercalate_single (s a : String) : String.intercalate s [a] = a := rfl

theorem intercalate_pair (s a b : String) :
    String.intercalate s [a, b] = a ++ s ++ b := rfl

theorem naoVazios_eq_map (l : List String) (h : ∀ p ∈ l, stripTexto p ≠ "") :
    naoVazios l = l.map stripTexto := by
  apply List.filter_eq_self.mpr
  intro s hs
  rcases List.mem_map.mp hs with ⟨p, hp, rfl⟩
  simpa using h p hp

theorem juntar_singleton (p : String) (h : stripTexto p ≠ "") :
    juntarNaoVazios [p] = stripTexto p := by
  unfold juntarNaoVazios
  rw [naoVazios_eq_map [p] (by simpa using h)]
  rfl

theorem juntar_par (a b : String) (ha : stripTexto a ≠ "") (hb : stripTexto b ≠ "") :
    juntarNaoVazios [a, b] = stripTexto a ++ "\n\n" ++ stripTexto b := by
  unfold juntarNaoVazios
  rw [naoVazios_eq_map [a, b] (by simp [ha, hb])]
  rfl

theorem fatiaReflexao_curta (ps : List String) (h : ps.length < 3) :
    fatiaReflexao ps = [] := by
  unfold fatiaReflexao
  have h0 : ps.length - 2 - (ps.length - 3) = 0 := by omega
  rw [h0, List.take_zero]

theorem fatiaReflexao_longa (ps : List String) (h : 3 ≤ ps.length) :
    ∃ p, p ∈ ps ∧ fatiaReflexao ps = [p] := by
  have hlt : ps.length - 3 < ps.length := by omega
  refine ⟨ps.get ⟨ps.length - 3, hlt⟩, List.get_mem ps _ _, ?_⟩
  unfold fatiaReflexao
  rw [List.drop_eq_getElem_cons hlt]
  have h1 : ps.length - 2 - (ps.length - 3) = 1 := by omega
  rw [h1]
  rfl

theorem fatiaOracao_pos (ps : List String) (h : 1 ≤ ps.length) :
    ∃ p, p ∈ ps ∧ fatiaOracao ps = [p] := by
  have hlt : ps.length - 1 < ps.length := by omega
  refine ⟨ps.get ⟨ps.length - 1, hlt⟩, List.get_mem ps _ _, ?_⟩
  unfold fatiaOracao
  rw [List.drop_eq_getElem_cons hlt]
  have h1 : ps.length - 1 + 1 = ps.length := by omega
  rw [h1, List.drop_length]
  rfl

/-- When the structural elements are present and the portrait lookup cannot
raise, extraction succeeds and the three sections come from the three
positional slices. -/
theorem extrair_ok (pg : Pagina) (nomeBruto : String) (ps : List String)
    (hn : pg.featureName = some nomeBruto) (hw : pg.wgText = some ps)
    (hr : retratoOk pg.retrato = true) :
    ∃ r, extrair_info_santo pg = some r ∧
      r.historia = juntarNaoVazios (fatiaHistoria ps) ∧
      r.reflexao = juntarNaoVazios (fatiaReflexao ps) ∧
      r.oracao = juntarNaoVazios (fatiaOracao ps) := by
  rcases pg with ⟨fn, wt, rt, sl⟩
  cases hn
  cases hw
  cases rt with
  | semFeature => simp [retratoOk] at hr
  | semSrc => simp [retratoOk] at hr
  | semPortrait => exact ⟨_, rfl, rfl, rfl, rfl⟩
  | comSrc s => exact ⟨_, rfl, rfl, rfl, rfl⟩

/-- C1 (amended by the counterexample below: the positional law additionally
requires every paragraph to have non-whitespace text, because the source
filters blank paragraphs out of each joined slice): for a page with `N`
paragraphs, all non-blank, whose name element and text container are present
and whose portrait lookup does not raise, extraction succeeds — also when
`N < 4`, with empty sections rather than an error — and the produced record
has its story built from exactly `max(N-4, 0)` paragraphs joined with a
blank-line separator, its reflection empty iff `N < 3`, and its prayer empty
iff `N = 0`. -/
theorem extracao_posicional (pg : Pagina) (nomeBruto : String) (ps : List String)
    (hn : pg.featureName = some nomeBruto) (hw : pg.wgText = some ps)
    (hr : retratoOk pg.retrato = true) (hnb : ∀ p ∈ ps, stripTexto p ≠ "") :
    ∃ r, extrair_info_santo pg = some r ∧
      ((naoVazios (fatiaHistoria ps)).length : Int) = max ((ps.length : Int) - 4) 0 ∧
      r.historia = String.intercalate "\n\n" (naoVazios (fatiaHistoria ps)) ∧
      (r.reflexao = "" ↔ ps.length < 3) ∧
      (r.oracao = "" ↔ ps.length = 0) := by
  obtain ⟨r, hre, hh, hrf, ho⟩ := extrair_ok pg nomeBruto ps hn hw hr
  refine ⟨r, hre, ?_, ?_, ?_, ?_⟩
  · have hsub : ∀ p ∈ fatiaHistoria ps, stripTexto p ≠ "" :=
      fun p hp => hnb p (List.take_subset _ _ hp)
    rw [naoVazios_eq_map _ hsub, List.length_map, fatiaHistoria, List.length_take]
    omega
  · exact hh
  · rcases Nat.lt_or_ge ps.length 3 with h3 | h3
    · rw [hrf, fatiaReflexao_curta ps h3]
      exact iff_of_true rfl h3
    · obtain ⟨p, hpmem, hpeq⟩ := fatiaReflexao_longa ps h3
      rw [hrf, hpeq, juntar_singleton p (hnb p hpmem)]
      exact iff_of_false (hnb p hpmem) (by omega)
  · rcases Nat.eq_zero_or_pos ps.length with h1 | h1
    · obtain rfl := List.length_eq_zero.mp h1
      rw [ho]
      exact iff_of_true rfl rfl
    · obtain ⟨p, hpmem, hpeq⟩ := fatiaOracao_pos ps h1
      rw [ho, hpeq, juntar_singleton p (hnb p hpmem)]
      exact iff_of_false (hnb p hpmem) (by omega)

/-- A page whose three paragraphs are all whitespace. -/
def paginaBranca : Pagina :=
  ⟨some "Santo", some [" ", " ", " "], Retrato.semPortrait, none⟩

/-- C1 counterexample: the claim as stated fails on blank paragraphs.  This
page has `N = 3` paragraphs, extraction succeeds, yet its reflection is empty
although `N ≥ 3` and its prayer is empty although `N ≠ 0`, because the source
drops whitespace-only paragraphs from every joined slice. -/
theorem extracao_posicional_contraexemplo :
    extrair_info_santo paginaBranca = some ⟨"Santo", none, "", "", ""⟩ ∧
    Option.map List.length paginaBranca.wgText = some 3 ∧
    ¬((3 : Nat) < 3) ∧ (3 : Nat) ≠ 0 := by
  refine ⟨?_, rfl, by omega, by omega⟩
  rfl

/-- A well-formed page with six non-blank paragraphs. -/
def paginaSeis : Pagina :=
  ⟨some " Santo ", some ["p1", "p2", "p3", "p4", "p5", "p6"],
    Retrato.semPortrait, none⟩

/-- Witness for the amended C1 theorem at a concrete six-paragraph page. -/
theorem extracao_posicional_testemunha :
    ∃ r, extrair_info_santo paginaSeis = some r ∧
      ((naoVazios (fatiaHistoria ["p1", "p2", "p3", "p4", "p5", "p6"])).length : Int) =
        max (((["p1", "p2", "p3", "p4", "p5", "p6"] : List String).length : Int) - 4) 0 ∧
      r.historia = String.intercalate "\n\n"
        (naoVazios (fatiaHistoria ["p1", "p2", "p3", "p4", "p5", "p6"])) ∧
      (r.reflexao = "" ↔ (["p1", "p2", "p3", "p4", "p5", "p6"] : List String).length < 3) ∧
      (r.oracao = "" ↔ (["p1", "p2", "p3", "p4", "p5", "p6"] : List String).length = 0) :=
  extracao_posicional paginaSeis " Santo " ["p1", "p2", "p3", "p4", "p5", "p6"]
    rfl rfl rfl (by decide)

/-! ### Scenario A: an index page with three children of six paragraphs -/

/-- On a page of exactly six non-blank paragraphs, extraction yields the first
two paragraphs as the story, the **fourth** paragraph (slice `[-3:-2]`) as the
reflection, and the sixth as the prayer. -/
theorem extrair_seis (pg : Pagina) (r : InfoSanto) (pa pb pc pd pe pf : String)
    (hw : pg.wgText = some [pa, pb, pc, pd, pe, pf])
    (hnb : ∀ p ∈ [pa, pb, pc, pd, pe, pf], stripTexto p ≠ "")
    (hre : extrair_info_santo pg = some r) :
    r.historia = stripTexto pa ++ "\n\n" ++ stripTexto pb ∧
    r.reflexao = stripTexto pd ∧
    r.oracao = stripTexto pf := by
  rcases pg with ⟨fn, wt, rt, sl⟩
  cases hw
  have hfa : fatiaHistoria [pa, pb, pc, pd, pe, pf] = [pa, pb] := rfl
  have hfr : fatiaReflexao [pa, pb, pc, pd, pe, pf] = [pd] := rfl
  have hfo : fatiaOracao [pa, pb, pc, pd, pe, pf] = [pf] := rfl
  cases fn with
  | none => simp [extrair_info_santo] at hre
  | some nb =>
    cases rt with
    | semFeature => simp [extrair_info_santo] at hre
    | semSrc => simp [extrair_info_santo] at hre
    | semPortrait =>
      simp only [extrair_info_santo, Option.some.injEq] at hre
      subst hre
      refine ⟨?_, ?_, ?_⟩
      · rw [show (⟨stripTexto nb, none, juntarNaoVazios (fatiaHistoria [pa, pb, pc, pd, pe, pf]),
          juntarNaoVazios (fatiaReflexao [pa, pb, pc, pd, pe, pf]),
          juntarNaoVazios (fatiaOracao [pa, pb, pc, pd, pe, pf])⟩ : InfoSanto).historia =
          juntarNaoVazios (fatiaHistoria [pa, pb, pc, pd, pe, pf]) from rfl, hfa]
        exact juntar_par pa pb (hnb pa (by simp)) (hnb pb (by simp))
      · rw [show (⟨stripTexto nb, none, juntarNaoVazios (fatiaHistoria [pa, pb, pc, pd, pe, pf]),
          juntarNaoVazios (fatiaReflexao [pa, pb, pc, pd, pe, pf]),
          juntarNaoVazios (fatiaOracao [pa, pb, pc, pd, pe, pf])⟩ : InfoSanto).reflexao =
          juntarNaoVazios (fatiaReflexao [pa, pb, pc, pd, pe, pf]) from rfl, hfr]
        exact juntar_singleton pd (hnb pd (by simp))
      · rw [show (⟨stripTexto nb, none, juntarNaoVazios (fatiaHistoria [pa, pb, pc, pd, pe, pf]),
          juntarNaoVazios (fatiaReflexao [pa, pb, pc, pd, pe, pf]),
          juntarNaoVazios (fatiaOracao [pa, pb, pc, pd, pe, pf])⟩ : InfoSanto).oracao =
          juntarNaoVazios (fatiaOracao [pa, pb, pc, pd, pe, pf]) from rfl, hfo]
        exact juntar_singleton pf (hnb pf (by simp))
    | comSrc s =>
      simp only [extrair_info_santo, Option.some.injEq] at hre
      subst hre
      refine ⟨?_, ?_, ?_⟩
      · rw [show (⟨stripTexto nb, some ("https://www.a12.com" ++ s),
          juntarNaoVazios (fatiaHistoria [pa, pb, pc, pd, pe, pf]),
          juntarNaoVazios (fatiaReflexao [pa, pb, pc, pd, pe, pf]),
          juntarNaoVazios (fatiaOracao [pa, pb, pc, pd, pe, pf])⟩ : InfoSanto).historia =
          juntarNaoVazios (fatiaHistoria [pa, pb, pc, pd, pe, pf]) from rfl, hfa]
        exact juntar_par pa pb (hnb pa (by simp)) (hnb pb (by simp))
      · rw [show (⟨stripTexto nb, some ("https://www.a12.com" ++ s),
          juntarNaoVazios (fatiaHistoria [pa, pb, pc, pd, pe, pf]),
          juntarNaoVazios (fatiaReflexao [pa, pb, pc, pd, pe, pf]),
          juntarNaoVazios (fatiaOracao [pa, pb, pc, pd, pe, pf])⟩ : InfoSanto).reflexao =
          juntarNaoVazios (fatiaReflexao [pa, pb, pc, pd, pe, pf]) from rfl, hfr]
        exact juntar_singleton pd (hnb pd (by simp))
      · rw [show (⟨stripTexto nb, some ("https://www.a12.com" ++ s),
          juntarNaoVazios (fatiaHistoria [pa, pb, pc, pd, pe, pf]),
          juntarNaoVazios (fatiaReflexao [pa, pb, pc, pd, pe, pf]),
          juntarNaoVazios (fatiaOracao [pa, pb, pc, pd, pe, pf])⟩ : InfoSanto).oracao =
          juntarNaoVazios (fatiaOracao [pa, pb, pc, pd, pe, pf]) from rfl, hfo]
        exact juntar_singleton pf (hnb pf (by simp))

/-- C2 (amended by the counterexample below: with six paragraphs the slice
`[-3:-2]` selects the **fourth** paragraph, not the third): when the cached
lookup misses and the index page lists three child links whose pages each
carry six non-blank paragraphs and extract successfully, the `/` route
returns exactly three records, in link order, each with story = paragraphs
1–2 joined with a blank-line separator, reflection = paragraph 4, and
prayer = paragraph 6. -/
theorem cenario_tres_filhos (hash : String → String) (dataAtual : String)
    (rede : Rede) (cache : CacheT) (pgIdx pg1 pg2 pg3 : Pagina)
    (u1 u2 u3 : String) (r1 r2 r3 : InfoSanto)
    (ll1 ll2 ll3 : List String)
    (hmiss : cache (chaveInicio hash dataAtual) = none)
    (htop : rede urlSanto = some pgIdx)
    (hlinks : pgIdx.saintsList = some [u1, u2, u3])
    (hr1 : rede u1 = some pg1) (hr2 : rede u2 = some pg2) (hr3 : rede u3 = some pg3)
    (he1 : extrair_info_santo pg1 = some r1)
    (he2 : extrair_info_santo pg2 = some r2)
    (he3 : extrair_info_santo pg3 = some r3)
    (hw1 : pg1.wgText = some ll1) (hl1 : ll1.length = 6)
    (hw2 : pg2.wgText = some ll2) (hl2 : ll2.length = 6)
    (hw3 : pg3.wgText = some ll3) (hl3 : ll3.length = 6)
    (hnb1 : ∀ p ∈ ll1, stripTexto p ≠ "")
    (hnb2 : ∀ p ∈ ll2, stripTexto p ≠ "")
    (hnb3 : ∀ p ∈ ll3, stripTexto p ≠ "") :
    (inicio hash dataAtual rede cache).resp =
      Resp.resultados [some r1, some r2, some r3] ∧
    (∀ pa pb pc pd pe pf, ll1 = [pa, pb, pc, pd, pe, pf] →
      r1.historia = stripTexto pa ++ "\n\n" ++ stripTexto pb ∧
      r1.reflexao = stripTexto pd ∧ r1.oracao = stripTexto pf) ∧
    (∀ pa pb pc pd pe pf, ll2 = [pa, pb, pc, pd, pe, pf] →
      r2.historia = stripTexto pa ++ "\n\n" ++ stripTexto pb ∧
      r2.reflexao = stripTexto pd ∧ r2.oracao = stripTexto pf) ∧
    (∀ pa pb pc pd pe pf, ll3 = [pa, pb, pc, pd, pe, pf] →
      r3.historia = stripTexto pa ++ "\n\n" ++ stripTexto pb ∧
      r3.reflexao = stripTexto pd ∧ r3.oracao = stripTexto pf) := by
  refine ⟨?_, ?_, ?_, ?_⟩
  · have hres : resolverLista rede [u1, u2, u3] = [r1, r2, r3] := by
      simp [resolverLista, buscar_dados_santo, hr1, hr2, hr3, he1, he2, he3]
    simp [inicio, hmiss, corpoInicio, htop, hlinks, hres]
  · intro pa pb pc pd pe pf hsplit
    subst hsplit
    exact extrair_seis pg1 r1 pa pb pc pd pe pf hw1 hnb1 he1
  · intro pa pb pc pd pe pf hsplit
    subst hsplit
    exact extrair_seis pg2 r2 pa pb pc pd pe pf hw2 hnb2 he2
  · intro pa pb pc pd pe pf hsplit
    subst hsplit
    exact extrair_seis pg3 r3 pa pb pc pd pe pf hw3 hnb3 he3

/-- The record extracted from a child page with paragraphs `p1 … p6`. -/
def infoSeis : InfoSanto := ⟨"Santo", none, "p1\n\np2", "p4", "p6"⟩

/-- An index page listing three child links and no extractable content of its
own. -/
def paginaIndice : Pagina := ⟨none, none, Retrato.semFeature, some ["u1", "u2", "u3"]⟩

/-- A child page carrying six distinct non-blank paragraphs. -/
def paginaFilha : Pagina :=
  ⟨some "Santo", some ["p1", "p2", "p3", "p4", "p5", "p6"], Retrato.semPortrait, none⟩

/-- A network serving the index page at the top-level URL and the same child
page under the three listed links. -/
def redeTresFilhos : Rede := fun u =>
  if u = urlSanto then some paginaIndice
  else if u = "u1" ∨ u = "u2" ∨ u = "u3" then some paginaFilha
  else none

/-- C2 counterexample: on the concrete three-children world the `/` route does
return three records, but each record's reflection is paragraph **4** of its
child page, not paragraph 3 as the claim states. -/
theorem cenario_tres_filhos_contraexemplo :
    (inicio id "2026-10-12" redeTresFilhos cacheVazio).resp =
      Resp.resultados [some infoSeis, some infoSeis, some infoSeis] ∧
    infoSeis.reflexao = "p4" ∧ infoSeis.reflexao ≠ "p3" := by
  refine ⟨?_, rfl, by decide⟩
  rfl

/-- Witness for the amended C2 theorem at the concrete three-children world. -/
theorem cenario_tres_filhos_testemunha :
    (inicio id "2026-10-12" redeTresFilhos cacheVazio).resp =
      Resp.resultados [some infoSeis, some infoSeis, some infoSeis] ∧
    (∀ pa pb pc pd pe pf,
      (["p1", "p2", "p3", "p4", "p5", "p6"] : List String) = [pa, pb, pc, pd, pe, pf] →
      infoSeis.historia = stripTexto pa ++ "\n\n" ++ stripTexto pb ∧
      infoSeis.reflexao = stripTexto pd ∧ infoSeis.oracao = stripTexto pf) ∧
    (∀ pa pb pc pd pe pf,
      (["p1", "p2", "p3", "p4", "p5", "p6"] : List String) = [pa, pb, pc, pd, pe, pf] →
      infoSeis.historia = stripTexto pa ++ "\n\n" ++ stripTexto pb ∧
      infoSeis.reflexao = stripTexto pd ∧ infoSeis.oracao = stripTexto pf) ∧
    (∀ pa pb pc pd pe pf,
      (["p1", "p2", "p3", "p4", "p5", "p6"] : List String) = [pa, pb, pc, pd, pe, pf] →
      infoSeis.historia = stripTexto pa ++ "\n\n" ++ stripTexto pb ∧
      infoSeis.reflexao = stripTexto pd ∧ infoSeis.oracao = stripTexto pf) :=
  cenario_tres_filhos id "2026-10-12" redeTresFilhos cacheVazio
    paginaIndice paginaFilha paginaFilha paginaFilha "u1" "u2" "u3"
    infoSeis infoSeis infoSeis
    ["p1", "p2", "p3", "p4", "p5", "p6"] ["p1", "p2", "p3", "p4", "p5", "p6"]
    ["p1", "p2", "p3", "p4", "p5", "p6"]
    rfl (by decide) rfl (by decide) (by decide) (by decide)
    (by decide) (by decide) (by decide)
    rfl rfl rfl rfl rfl rfl (by decide) (by decide) (by decide)

/-! ### Fan-out over the child links -/

/-- C3: for a list page with `k` child links of which `f` fail fetch or
extraction, the fan-out returns exactly `k - f` records (no child failure
aborts the batch), and a succeeding link's record sits between the records of
the links before it and the records of the links after it — i.e. the
surviving records appear in original link order, not completion order (the
embedding keeps `executor.map`'s input-order result sequence). -/
theorem fanout_correto (rede : Rede) (urls : List String) :
    (resolverLista rede urls).length = urls.length - numFalhas rede urls ∧
    (∀ pre u post r, urls = pre ++ u :: post →
      buscar_dados_santo rede u = some r →
      resolverLista rede urls =
        resolverLista rede pre ++ r :: resolverLista rede post) := by
  constructor
  · induction urls with
    | nil => rfl
    | cons u us ih =>
      have hle : (us.filter (fun x => (buscar_dados_santo rede x).isNone)).length ≤
          us.length := List.length_filter_le _ _
      cases h : buscar_dados_santo rede u with
      | none =>
        simp only [resolverLista, numFalhas, List.filterMap_cons, List.filter_cons, h,
          Option.isNone_none, List.length_cons, if_pos] at ih ⊢
        omega
      | some r =>
        simp only [resolverLista, numFalhas, List.filterMap_cons, List.filter_cons, h,
          Option.isNone_some, List.length_cons, if_neg, Bool.false_eq_true,
          not_false_iff] at ih ⊢
        omega
  · intro pre u post r hsplit hu
    subst hsplit
    simp [resolverLista, List.filterMap_append pre, List.filterMap_cons, hu]

/-- Witness for C3 at a concrete world: of three links one fails (unknown
URL), the two survivors keep their original order around the split. -/
theorem fanout_correto_testemunha :
    (resolverLista redeTresFilhos ["u1", "x", "u3"]).length =
      (["u1", "x", "u3"] : List String).length -
        numFalhas redeTresFilhos ["u1", "x", "u3"] ∧
    resolverLista redeTresFilhos ["u1", "x", "u3"] =
      resolverLista redeTresFilhos ["u1", "x"] ++
        infoSeis :: resolverLista redeTresFilhos [] := by
  have h := fanout_correto redeTresFilhos ["u1", "x", "u3"]
  exact ⟨h.1, h.2 ["u1", "x"] "u3" [] infoSeis rfl (by decide)⟩

/-! ### Cache keys -/

theorem intercalate_go_snoc (s d : String) (l : List String) (acc : String) :
    String.intercalate.go acc s (l ++ [d]) = String.intercalate.go acc s l ++ s ++ d := by
  induction l generalizing acc with
  | nil => rfl
  | cons a as ih => exact ih (acc ++ s ++ a)

theorem intercalate_snoc (s d : String) (a : String) (l : List String) :
    String.intercalate s (a :: (l ++ [d])) = String.intercalate s (a :: l) ++ s ++ d :=
  intercalate_go_snoc s d l a

theorem string_append_left_cancel (s a b : String) (h : s ++ a = s ++ b) : a = b := by
  have h2 := congrArg String.data h
  simp only [String.data_append] at h2
  have h3 := List.append_cancel_left h2
  cases a
  cases b
  exact congrArg String.mk h3

/-- The key material determines the date component: with the same arguments,
different date strings yield different materials, because the date is the
last `"_"`-joined component. -/
theorem string_chave_inj_data (args : List String) (kwargs : List (String × String))
    (d1 d2 : String) (h : string_chave args kwargs d1 = string_chave args kwargs d2) :
    d1 = d2 := by
  unfold string_chave at h
  cases hp : args ++ (ordenarPares kwargs).map (fun kv => kv.1 ++ ":" ++ kv.2) with
  | nil => rw [hp] at h; exact h
  | cons a as =>
    rw [hp] at h
    simp only [List.cons_append] at h
    rw [intercalate_snoc, intercalate_snoc] at h
    exact string_append_left_cancel _ _ _ h

/-- C4: computing the cache key twice with the same operation name, parameters
and calendar date gives the same key, and — for any collision-free digest
function in place of the external `hashlib.md5` — computing it for the same
operation and parameters on two different calendar dates gives two different
keys, because the key material embeds the date as its final component. -/
theorem chave_determinista_e_ligada_a_data (hash : String → String)
    (hinj : Function.Injective hash) (args : List String)
    (kwargs : List (String × String)) (d1 d2 : String) (hd : d1 ≠ d2) :
    criar_chave_cache hash args kwargs d1 = criar_chave_cache hash args kwargs d1 ∧
    criar_chave_cache hash args kwargs d1 ≠ criar_chave_cache hash args kwargs d2 := by
  refine ⟨rfl, fun h => hd ?_⟩
  exact string_chave_inj_data args kwargs d1 d2 (hinj h)

/-- Witness for C4 at the `/` route's operation name on two consecutive
dates. -/
theorem chave_determinista_testemunha :
    criar_chave_cache id ["inicio"] [] "2026-10-12" =
      criar_chave_cache id ["inicio"] [] "2026-10-12" ∧
    criar_chave_cache id ["inicio"] [] "2026-10-12" ≠
      criar_chave_cache id ["inicio"] [] "2026-10-13" :=
  chave_determinista_e_ligada_a_data id (fun _ _ h => h) ["inicio"] []
    "2026-10-12" "2026-10-13" (by decide)

/-! ### Cache hits, empty entries and pipeline errors on the two routes -/

/-- C5 (amended by the counterexample below: the claim only holds for entries
whose stored value is non-empty, because `if dados_cache:` treats a stored
empty list like a miss): on both routes, when the key holds an unexpired entry
with a non-empty value, the handler returns exactly the stored value, leaves
the store untouched and performs no `buscar_url` call — PageFetcher is never
invoked. -/
theorem curto_circuito_cache (hash : String → String) (dataAtual : String)
    (dia mes : Nat) (rede : Rede) (cache : CacheT) (v w : ValorCache)
    (hv : cache (chaveInicio hash dataAtual) = some v) (hvne : v ≠ [])
    (hw : cache (chaveData hash dia mes dataAtual) = some w) (hwne : w ≠ []) :
    inicio hash dataAtual rede cache = ⟨Resp.resultados v, cache, []⟩ ∧
    data hash dataAtual dia mes rede cache = ⟨Resp.resultados w, cache, []⟩ := by
  constructor
  · simp [inicio, hv, hvne]
  · simp [data, hw, hwne]

/-- A store holding a non-empty entry for both canonical keys of the day. -/
def cacheCheio : CacheT := fun k =>
  if k = chaveInicio id "2026-10-12" then some [some infoSeis]
  else if k = chaveData id 7 9 "2026-10-12" then some [some infoSeis]
  else none

/-- Witness for the amended C5 theorem on a concrete store with non-empty
entries for both routes. -/
theorem curto_circuito_cache_testemunha :
    inicio id "2026-10-12" redeTresFilhos cacheCheio =
      ⟨Resp.resultados [some infoSeis], cacheCheio, []⟩ ∧
    data id "2026-10-12" 7 9 redeTresFilhos cacheCheio =
      ⟨Resp.resultados [some infoSeis], cacheCheio, []⟩ :=
  curto_circuito_cache id "2026-10-12" 7 9 redeTresFilhos cacheCheio
    [some infoSeis] [some infoSeis] (by decide) (by decide) (by decide) (by decide)

/-- A store holding an (unexpired) entry whose value is the empty list under
the `/` route's key of the day. -/
def cacheComVazio : CacheT := fun k =>
  if k = chaveInicio id "2026-10-12" then some [] else none

/-- C5 counterexample: the key of the `/` route holds an unexpired stored
entry (the empty list), yet the handler does not return the stored value and
it does invoke PageFetcher — `if dados_cache:` is false for `[]`, so the full
pipeline runs. -/
theorem curto_circuito_cache_contraexemplo :
    cacheComVazio (chaveInicio id "2026-10-12") = some [] ∧
    (inicio id "2026-10-12" redeTresFilhos cacheComVazio).buscas =
      [urlSanto, "u1", "u2", "u3"] ∧
    (inicio id "2026-10-12" redeTresFilhos cacheComVazio).resp ≠
      Resp.resultados [] := by
  refine ⟨by decide, ?_, by decide⟩
  rfl

/-- C7: when the top-level fetch fails and the cache lookup does not
short-circuit (miss or stored empty list), each route fails as a whole: the
caller gets the single `jsonify(erro=...), 500` pipeline-error response —
never a partial result list — only the one top-level fetch was attempted, and
nothing is stored in the cache (the store is returned unchanged). -/
theorem falha_busca_topo (hash : String → String) (dataAtual : String)
    (dia mes : Nat) (rede : Rede) (cache : CacheT)
    (hi : cache (chaveInicio hash dataAtual) = none ∨
          cache (chaveInicio hash dataAtual) = some [])
    (hd : cache (chaveData hash dia mes dataAtual) = none ∨
          cache (chaveData hash dia mes dataAtual) = some [])
    (hfi : rede urlSanto = none) (hfd : rede (urlSantoData dia mes) = none) :
    inicio hash dataAtual rede cache = ⟨Resp.erro, cache, [urlSanto]⟩ ∧
    data hash dataAtual dia mes rede cache =
      ⟨Resp.erro, cache, [urlSantoData dia mes]⟩ := by
  constructor
  · rcases hi with h | h <;> simp [inicio, corpoInicio, h, hfi]
  · rcases hd with h | h <;> simp [data, corpoData, h, hfd]

/-- A network on which every fetch fails. -/
def redeSemRespostas : Rede := fun _ => none

/-- Witness for C7 on the all-failing network and an empty store. -/
theorem falha_busca_topo_testemunha :
    inicio id "2026-10-12" redeSemRespostas cacheVazio =
      ⟨Resp.erro, cacheVazio, [urlSanto]⟩ ∧
    data id "2026-10-12" 7 9 redeSemRespostas cacheVazio =
      ⟨Resp.erro, cacheVazio, [urlSantoData 7 9]⟩ :=
  falha_busca_topo id "2026-10-12" 7 9 redeSemRespostas cacheVazio
    (Or.inl rfl) (Or.inl rfl) rfl rfl

theorem corpoInicio_buscas (rede : Rede) (cache : CacheT) (chave : String) :
    ∃ resto, (corpoInicio rede cache chave).buscas = urlSanto :: resto := by
  cases h : rede urlSanto with
  | none => exact ⟨[], by simp [corpoInicio, h]⟩
  | some pg =>
    cases hs : pg.saintsList with
    | none => exact ⟨[], by simp [corpoInicio, h, hs]⟩
    | some us => exact ⟨us, by simp [corpoInicio, h, hs]⟩

theorem corpoData_buscas (dia mes : Nat) (rede : Rede) (cache : CacheT) (chave : String) :
    ∃ resto, (corpoData dia mes rede cache chave).buscas = urlSantoData dia mes :: resto := by
  cases h : rede (urlSantoData dia mes) with
  | none => exact ⟨[], by simp [corpoData, h]⟩
  | some pg =>
    cases hs : pg.saintsList with
    | none =>
      cases he : extrair_info_santo pg with
      | none => exact ⟨[], by simp [corpoData, h, hs, he]⟩
      | some i => exact ⟨[], by simp [corpoData, h, hs, he]⟩
    | some us => exact ⟨us, by simp [corpoData, h, hs]⟩

/-- C10: on both routes, a stored empty list under the request's key is not
served as a hit: the handler behaves exactly as on a miss — it runs the full
fetch-and-extract pipeline body again, starting with the top-level
`buscar_url` call. -/
theorem lista_vazia_nao_atinge (hash : String → String) (dataAtual : String)
    (dia mes : Nat) (rede : Rede) (cache : CacheT)
    (hi : cache (chaveInicio hash dataAtual) = some [])
    (hd : cache (chaveData hash dia mes dataAtual) = some []) :
    inicio hash dataAtual rede cache =
      corpoInicio rede cache (chaveInicio hash dataAtual) ∧
    urlSanto ∈ (inicio hash dataAtual rede cache).buscas ∧
    data hash dataAtual dia mes rede cache =
      corpoData dia mes rede cache (chaveData hash dia mes dataAtual) ∧
    urlSantoData dia mes ∈ (data hash dataAtual dia mes rede cache).buscas := by
  have h1 : inicio hash dataAtual rede cache =
      corpoInicio rede cache (chaveInicio hash dataAtual) := by
    simp [inicio, hi]
  have h2 : data hash dataAtual dia mes rede cache =
      corpoData dia mes rede cache (chaveData hash dia mes dataAtual) := by
    simp [data, hd]
  refine ⟨h1, ?_, h2, ?_⟩
  · obtain ⟨resto, hb⟩ := corpoInicio_buscas rede cache (chaveInicio hash dataAtual)
    rw [h1, hb]
    exact List.mem_cons_self _ _
  · obtain ⟨resto, hb⟩ := corpoData_buscas dia mes rede cache
      (chaveData hash dia mes dataAtual)
    rw [h2, hb]
    exact List.mem_cons_self _ _

/-- A store holding an empty-list entry for both canonical keys of the day. -/
def cacheSoVazios : CacheT := fun k =>
  if k = chaveInicio id "2026-10-12" then some []
  else if k = chaveData id 7 9 "2026-10-12" then some [] else none

/-- Witness for C10 on a concrete store with empty-list entries. -/
theorem lista_vazia_nao_atinge_testemunha :
    inicio id "2026-10-12" redeSemRespostas cacheSoVazios =
      corpoInicio redeSemRespostas cacheSoVazios (chaveInicio id "2026-10-12") ∧
    urlSanto ∈ (inicio id "2026-10-12" redeSemRespostas cacheSoVazios).buscas ∧
    data id "2026-10-12" 7 9 redeSemRespostas cacheSoVazios =
      corpoData 7 9 redeSemRespostas cacheSoVazios (chaveData id 7 9 "2026-10-12") ∧
    urlSantoData 7 9 ∈ (data id "2026-10-12" 7 9 redeSemRespostas cacheSoVazios).buscas :=
  lista_vazia_nao_atinge id "2026-10-12" 7 9 redeSemRespostas cacheSoVazios
    (by decide) (by decide)

/-! ### Failed extraction of a single page on each route -/

/-- A page with no saints-list container on which extraction fails (its
`div.feature__name` is absent). -/
def paginaQuebrada : Pagina := ⟨none, none, Retrato.semFeature, none⟩

/-- A network serving the broken page at both top-level URLs. -/
def redeQuebrada : Rede := fun u =>
  if u = urlSanto ∨ u = urlSantoData 7 9 then some paginaQuebrada else none

/-- C6: the fetched page has no saints-list container and extraction of the
single page fails.  The day/month route indeed returns the empty list, but
the `/` route wraps the failed extraction unguarded (`santos =
[extrair_info_santo(soup)]`, line 186), returning — and caching — a
one-element list containing a null placeholder instead of the empty list. -/
theorem extracao_falha_divergencia :
    extrair_info_santo paginaQuebrada = none ∧
    (data id "2026-10-12" 7 9 redeQuebrada cacheVazio).resp = Resp.resultados [] ∧
    (inicio id "2026-10-12" redeQuebrada cacheVazio).resp = Resp.resultados [none] ∧
    Resp.resultados [none] ≠ Resp.resultados [] ∧
    (inicio id "2026-10-12" redeQuebrada cacheVazio).cache
      (chaveInicio id "2026-10-12") = some [none] := by
  refine ⟨rfl, rfl, rfl, by decide, ?_⟩
  rfl

/-! ### The daily refresh job -/

theorem aquecerUrl_buscas (rede : Rede) (st : CacheT × Option ValorCache)
    (url chave : String) :
    ∃ resto, (aquecerUrl rede st url chave).2 = url :: resto := by
  cases h : rede url with
  | none => exact ⟨[], by simp [aquecerUrl, h]⟩
  | some pg =>
    cases hs : pg.saintsList with
    | some us => exact ⟨us, by simp [aquecerUrl, h, hs]⟩
    | none =>
      cases he : extrair_info_santo pg with
      | some i => exact ⟨[], by simp [aquecerUrl, h, hs, he]⟩
      | none =>
        cases h2 : st.2 with
        | none => exact ⟨[], by simp [aquecerUrl, h, hs, he, h2]⟩
        | some v => exact ⟨[], by simp [aquecerUrl, h, hs, he, h2]⟩

/-- C8: whatever the network does — including failing one or both fetches —
the daily job always attempts both canonical warm-ups (the `buscar_url` call
list always contains both top-level URLs, so a failure while warming one never
prevents the other from being attempted), and when the day/month page is
reachable and lists children, the final store holds its fan-out result under
its key no matter what happened to the first warm-up.  The job is a total
function of the embedding — every exception inside it is caught by the
source's inner and outer `try/except`, so no error escapes the job. -/
theorem aquecimento_independente (hash : String → String) (dataAtual : String)
    (dia mes : Nat) (rede : Rede) :
    urlSanto ∈ (limpar_e_atualizar_cache hash dataAtual dia mes rede).2 ∧
    urlSantoData dia mes ∈ (limpar_e_atualizar_cache hash dataAtual dia mes rede).2 ∧
    (∀ pg2 us2, rede (urlSantoData dia mes) = some pg2 → pg2.saintsList = some us2 →
      (limpar_e_atualizar_cache hash dataAtual dia mes rede).1.1
        (criar_chave_cache hash ["data_" ++ toString dia ++ "_" ++ toString mes] [] dataAtual)
        = some ((resolverLista rede us2).map some)) := by
  obtain ⟨r1, hb1⟩ := aquecerUrl_buscas rede (cacheVazio, none) urlSanto
    (criar_chave_cache hash ["inicio"] [] dataAtual)
  refine ⟨?_, ?_, ?_⟩
  · simp only [limpar_e_atualizar_cache, List.mem_append]
    exact Or.inl (hb1 ▸ List.mem_cons_self _ _)
  · obtain ⟨r2, hb2⟩ := aquecerUrl_buscas rede
      (aquecerUrl rede (cacheVazio, none) urlSanto
        (criar_chave_cache hash ["inicio"] [] dataAtual)).1
      (urlSantoData dia mes)
      (criar_chave_cache hash ["data_" ++ toString dia ++ "_" ++ toString mes] [] dataAtual)
    simp only [limpar_e_atualizar_cache, List.mem_append]
    exact Or.inr (hb2 ▸ List.mem_cons_self _ _)
  · intro pg2 us2 h2 hs2
    simp only [limpar_e_atualizar_cache, aquecerUrl, h2, hs2, setCache, if_pos rfl,
      if_true]

/-- A network where the first warm-up URL fails outright while the day/month
page lists no children. -/
def redeSoData : Rede := fun u =>
  if u = urlSantoData 7 9 then some ⟨none, none, Retrato.semFeature, some []⟩ else none

/-- Witness for C8: the first warm-up fails (its fetch errors), yet both URLs
are attempted and the second entry is still warmed (here with the empty
fan-out result). -/
theorem aquecimento_independente_testemunha :
    urlSanto ∈ (limpar_e_atualizar_cache id "2026-10-12" 7 9 redeSoData).2 ∧
    urlSantoData 7 9 ∈ (limpar_e_atualizar_cache id "2026-10-12" 7 9 redeSoData).2 ∧
    (∀ pg2 us2, redeSoData (urlSantoData 7 9) = some pg2 → pg2.saintsList = some us2 →
      (limpar_e_atualizar_cache id "2026-10-12" 7 9 redeSoData).1.1
        (criar_chave_cache id ["data_" ++ toString 7 ++ "_" ++ toString 9] [] "2026-10-12")
        = some ((resolverLista redeSoData us2).map some)) :=
  aquecimento_independente id "2026-10-12" 7 9 redeSoData

/-! ### The cache-status response header -/

/-- C9: a request served straight from the cache — no `buscar_url` call is
made and the stored value is returned — still gets header value `"MISS"`,
because `apos_requisicao` derives the header from the response's
`Cache-Control: public` flag, which no route ever sets, instead of from the
lookup's outcome. -/
theorem cabecalho_estado_cache_divergencia :
    (inicio id "2026-10-12" redeTresFilhos cacheCheio).buscas = [] ∧
    (inicio id "2026-10-12" redeTresFilhos cacheCheio).resp =
      Resp.resultados [some infoSeis] ∧
    apos_requisicao cache_control_public = "MISS" ∧
    apos_requisicao cache_control_public ≠ "HIT" := by
  refine ⟨?_, ?_, rfl, by decide⟩
  · rfl
  · rfl

end SantoDia
